import Mathlib

/-!
Shallow embedding of the JobFit AI API route handlers.

Each Next.js route handler is modelled as a pure function from an
environment record (the request data together with the outcomes of the
external calls the handler makes: Supabase auth, table queries, the
`consume_credits` RPC, the OpenAI completion API, row inserts) to an
HTTP response paired with the ordered trace of external calls performed.
String primitives follow the JavaScript semantics used by the source
(`||` on strings treats `""` as falsy, `trim` strips whitespace at both
ends, regex replaces in `normalizeText` rewrite maximal matches).
-/

namespace JobFit

/-! ### String utilities mirroring the JavaScript runtime -/

def isPrefixList : List Char → List Char → Bool
  | [], _ => true
  | _ :: _, [] => false
  | a :: as, b :: bs => a == b && isPrefixList as bs

def containsList (sub : List Char) : List Char → Bool
  | [] => isPrefixList sub []
  | c :: rest => isPrefixList sub (c :: rest) || containsList sub rest

def strStartsWithB (s pre : String) : Bool :=
  isPrefixList pre.data s.data

def strIncludesB (s sub : String) : Bool :=
  containsList sub.data s.data

def strDropL (s : String) (n : Nat) : String :=
  String.mk (s.data.drop n)

def charToLower (c : Char) : Char :=
  if 'A' ≤ c ∧ c ≤ 'Z' then Char.ofNat (c.toNat + 32) else c

def strToLowerB (s : String) : String :=
  String.mk (s.data.map charToLower)

def strEndsWithB (s suf : String) : Bool :=
  isPrefixList suf.data.reverse s.data.reverse

/-- The character class treated as whitespace by JavaScript `trim`
(restricted to the ASCII range, which is all this code base produces). -/
def isJsWS (c : Char) : Bool :=
  c == ' ' || c == '\t' || c == '\n' || c == '\r' || c == '\x0b' || c == '\x0c'

def jsTrimL (l : List Char) : List Char :=
  ((l.dropWhile isJsWS).reverse.dropWhile isJsWS).reverse

def strTrim (s : String) : String :=
  String.mk (jsTrimL s.data)

/-- JavaScript `a || b` on strings: `""` is falsy. -/
def orStr (a b : String) : String :=
  if a = "" then b else a

/-- JavaScript `o?.trim()` collapsed to a string, absent becoming `""`. -/
def optTrim (o : Option String) : String :=
  (o.map strTrim).getD ""

/-! ### `normalizeText` from the resume-upload route -/

def headIsNL : List Char → Bool
  | [] => false
  | c :: _ => c == '\n'

/-- `raw.replaceAll("\r\n", "\n")`: every carriage return directly followed
by a newline is deleted (left-to-right non-overlapping replacement of the
two-character pattern by its second character). -/
def replCRLF : List Char → List Char
  | [] => []
  | c :: rest =>
    if c == '\r' && headIsNL rest then replCRLF rest
    else c :: replCRLF rest

/-- `raw.replaceAll("\r", "\n")`. -/
def mapCR (l : List Char) : List Char :=
  l.map (fun c => if c == '\r' then '\n' else c)

def isSpTab (c : Char) : Bool :=
  c == ' ' || c == '\t'

/-- `raw.replace(/[ \t]+\n/g, "\n")`: every maximal run of spaces and tabs
immediately preceding a newline is deleted.  Processing the list from the
right, a space or tab is dropped exactly when the already-processed tail
begins with a newline. -/
def trimEOLSpaces : List Char → List Char
  | [] => []
  | c :: rest =>
    if isSpTab c && headIsNL (trimEOLSpaces rest) then trimEOLSpaces rest
    else c :: trimEOLSpaces rest

def headTwoNL : List Char → Bool
  | a :: b :: _ => a == '\n' && b == '\n'
  | _ => false

/-- `raw.replace(/\n{3,}/g, "\n\n")`: every maximal run of three or more
newlines is replaced by exactly two.  Processing from the right, a newline
is dropped exactly when two newlines already follow it. -/
def collapseBlankRuns : List Char → List Char
  | [] => []
  | c :: rest =>
    if c == '\n' && headTwoNL (collapseBlankRuns rest) then collapseBlankRuns rest
    else c :: collapseBlankRuns rest

def normalizeTextL (l : List Char) : List Char :=
  jsTrimL (collapseBlankRuns (trimEOLSpaces (mapCR (replCRLF l))))

def normalizeText (s : String) : String :=
  String.mk (normalizeTextL s.data)

/-! ### Normalization invariants checked on inserted rows -/

def noCR (l : List Char) : Bool :=
  l.all (fun c => !(c == '\r'))

def noSpaceBeforeNL : List Char → Bool
  | a :: b :: rest => !(isSpTab a && b == '\n') && noSpaceBeforeNL (b :: rest)
  | _ => true

def noTripleNL : List Char → Bool
  | a :: b :: c :: rest =>
    !(a == '\n' && b == '\n' && c == '\n') && noTripleNL (b :: c :: rest)
  | _ => true

def trimmedEnds (l : List Char) : Bool :=
  (match l.head? with
   | some c => !isJsWS c
   | none => true) &&
  (match l.getLast? with
   | some c => !isJsWS c
   | none => true)

/-! ### Data model -/

structure User where
  id : String
  email : Option String
  fullNameMeta : Option String
deriving DecidableEq

structure Job where
  id : String
  company : Option String
  role : Option String
  location : Option String
  notes : Option String
  jobDescription : Option String
deriving DecidableEq

structure DocRow where
  id : String
  title : String
  contentText : String
deriving DecidableEq

inductive RespBody where
  | errorBody (msg : String)
  | docWithCredits (doc : DocRow) (credits : Int)
  | docOnly (doc : Option DocRow)
  | envReport (hasOpenAIKey hasSupabaseUrl : Bool)
deriving DecidableEq

structure ApiResponse where
  status : Nat
  body : RespBody
deriving DecidableEq

def RespBody.hasDocumentField : RespBody → Bool
  | docWithCredits _ _ => true
  | docOnly _ => true
  | _ => false

def RespBody.hasCreditsField : RespBody → Bool
  | docWithCredits _ _ => true
  | _ => false

def RespBody.hasErrorField : RespBody → Bool
  | errorBody _ => true
  | _ => false

/-- External calls a handler can perform, in the order they happen. -/
inductive Event where
  | getUserEv
  | jobQueryEv
  | profileReadEv
  | consumeCreditsEv (amount : Int)
  | openAIEv
  | insertDocEv (contentText : String)
  | updateCreditsEv (newBalance : Int)
  | ledgerEv
  | pdfParseEv
  | docxParseEv
deriving DecidableEq

def Event.isConsume : Event → Bool
  | .consumeCreditsEv _ => true
  | _ => false

def Event.isOpenAI : Event → Bool
  | .openAIEv => true
  | _ => false

def Event.isInsert : Event → Bool
  | .insertDocEv _ => true
  | _ => false

def Event.isUpdate : Event → Bool
  | .updateCreditsEv _ => true
  | _ => false

def Event.isProfileRead : Event → Bool
  | .profileReadEv => true
  | _ => false

def Event.isGetUser : Event → Bool
  | .getUserEv => true
  | _ => false

def Event.isPdf : Event → Bool
  | .pdfParseEv => true
  | _ => false

def Event.isDocx : Event → Bool
  | .docxParseEv => true
  | _ => false

/-- `firstComesBefore p q tr` holds when scanning `tr` left to right meets an
event satisfying `p` before any event satisfying `q` (vacuously when no
`q`-event occurs). -/
def firstComesBefore (p q : Event → Bool) : List Event → Bool
  | [] => true
  | e :: rest => if q e then false else if p e then true else firstComesBefore p q rest

/-- Token extraction shared by every route:
`authHeader.startsWith("Bearer ") ? authHeader.slice(7) : null`.
The routes then guard with `if (!token)`, which in JavaScript also rejects
the empty string; each route model therefore tests the extracted token for
emptiness before proceeding. -/
def bearerToken (authHeader : Option String) : Option String :=
  let h := authHeader.getD ""
  if strStartsWithB h "Bearer " then some (strDropL h 7) else none

/-! ### Cover-letter route (`app/api/cover-letter/route.ts`) -/

inductive Tone where
  | professional
  | concise
  | friendly
  | technical
  | confident
  | enthusiastic
deriving DecidableEq

structure CLBody where
  jobId : String
  tone : Option Tone
  userFullName : Option String
  userAddressLine1 : Option String
  userCityStateZip : Option String
  userPhone : Option String
  userEmail : Option String
  companyName : Option String
  hiringManagerName : Option String
  dateText : Option String

structure CLEnv where
  supabaseUrl : Option String
  supabaseAnon : Option String
  authHeader : Option String
  reqBody : Except String CLBody
  getUserRes : Except String (Option User)
  jobQueryRes : Except String (Option Job)
  rpcRes : Except String Int
  openAIRes : Except String String
  insertRes : Except String (Option DocRow)
  nowDateText : String

def coverLetterPOST (env : CLEnv) : ApiResponse × List Event :=
  match env.supabaseUrl with
  | none => (⟨500, .errorBody "Missing env: NEXT_PUBLIC_SUPABASE_URL"⟩, [])
  | some _ =>
  match env.supabaseAnon with
  | none => (⟨500, .errorBody "Missing env: NEXT_PUBLIC_SUPABASE_ANON_KEY"⟩, [])
  | some _ =>
  match bearerToken env.authHeader with
  | none => (⟨401, .errorBody "Missing Authorization Bearer token"⟩, [])
  | some tok =>
  if tok = "" then (⟨401, .errorBody "Missing Authorization Bearer token"⟩, [])
  else
  match env.reqBody with
  | .error e => (⟨500, .errorBody e⟩, [])
  | .ok body =>
  if body.jobId = "" then (⟨400, .errorBody "jobId is required"⟩, [])
  else
  match env.getUserRes with
  | .error _ => (⟨401, .errorBody "Invalid session"⟩, [.getUserEv])
  | .ok none => (⟨401, .errorBody "Invalid session"⟩, [.getUserEv])
  | .ok (some user) =>
  match env.jobQueryRes with
  | .error _ => (⟨404, .errorBody "Job not found"⟩, [.getUserEv, .jobQueryEv])
  | .ok none => (⟨404, .errorBody "Job not found"⟩, [.getUserEv, .jobQueryEv])
  | .ok (some job) =>
  match env.rpcRes with
  | .error msg =>
    if strIncludesB msg "INSUFFICIENT_CREDITS" then
      (⟨402, .errorBody "Insufficient credits"⟩,
        [.getUserEv, .jobQueryEv, .consumeCreditsEv 1])
    else
      (⟨500, .errorBody ("Credit error: " ++ msg)⟩,
        [.getUserEv, .jobQueryEv, .consumeCreditsEv 1])
  | .ok newBalance =>
  let headerName := orStr (optTrim body.userFullName) (orStr (user.fullNameMeta.getD "") "John Doe")
  let headerEmail := orStr (optTrim body.userEmail) (orStr (user.email.getD "") "john.doe@email.com")
  let address1 := orStr (optTrim body.userAddressLine1) "123 Main St"
  let cityStateZip := orStr (optTrim body.userCityStateZip) "City, ST 00000"
  let phone := orStr (optTrim body.userPhone) "555 555-5555"
  let companyName := orStr (optTrim body.companyName) (orStr (job.company.getD "") "Company Name")
  let hiringManager := orStr (optTrim body.hiringManagerName) "Hiring Manager"
  let dateText := orStr (optTrim body.dateText) env.nowDateText
  match env.openAIRes with
  | .error e =>
    (⟨500, .errorBody e⟩, [.getUserEv, .jobQueryEv, .consumeCreditsEv 1, .openAIEv])
  | .ok letterBody =>
  let fullText :=
    headerName ++ "\n" ++ address1 ++ "\n" ++ cityStateZip ++ "\n" ++ phone ++ "\n" ++
    headerEmail ++ "\n\n" ++ dateText ++ "\n" ++ companyName ++ "\n\nDear " ++
    hiringManager ++ ",\n\n" ++ letterBody ++ "\n\nSincerely,\n" ++ headerName ++ "\n"
  match env.insertRes with
  | .error _ =>
    (⟨500, .errorBody "Failed to save document"⟩,
      [.getUserEv, .jobQueryEv, .consumeCreditsEv 1, .openAIEv, .insertDocEv fullText])
  | .ok none =>
    (⟨500, .errorBody "Failed to save document"⟩,
      [.getUserEv, .jobQueryEv, .consumeCreditsEv 1, .openAIEv, .insertDocEv fullText])
  | .ok (some doc) =>
    (⟨200, .docWithCredits doc newBalance⟩,
      [.getUserEv, .jobQueryEv, .consumeCreditsEv 1, .openAIEv, .insertDocEv fullText])

/-! ### Resume-generation route (`app/api/resume/generate/route.ts`) -/

structure GenBody where
  fullName : Option String
  email : Option String
  phone : Option String
  location : Option String
  targetRole : Option String
  experienceLevel : Option String
  education : Option String
  experience : Option String
  projects : Option String
  skills : Option String
  additionalInfo : Option String
  title : Option String

structure GenEnv where
  supabaseUrl : Option String
  supabaseAnon : Option String
  authHeader : Option String
  reqBody : Except String GenBody
  getUserRes : Except String (Option User)
  rpcRes : Except String Int
  openAIRes : Except String String
  insertRes : Except String (Option DocRow)

def generateResumePOST (env : GenEnv) : ApiResponse × List Event :=
  match env.supabaseUrl with
  | none => (⟨500, .errorBody "Missing env: NEXT_PUBLIC_SUPABASE_URL"⟩, [])
  | some _ =>
  match env.supabaseAnon with
  | none => (⟨500, .errorBody "Missing env: NEXT_PUBLIC_SUPABASE_ANON_KEY"⟩, [])
  | some _ =>
  match bearerToken env.authHeader with
  | none => (⟨401, .errorBody "Missing Authorization Bearer token"⟩, [])
  | some tok =>
  if tok = "" then (⟨401, .errorBody "Missing Authorization Bearer token"⟩, [])
  else
  match env.reqBody with
  | .error e => (⟨500, .errorBody e⟩, [])
  | .ok body =>
  match env.getUserRes with
  | .error _ => (⟨401, .errorBody "Invalid session"⟩, [.getUserEv])
  | .ok none => (⟨401, .errorBody "Invalid session"⟩, [.getUserEv])
  | .ok (some _user) =>
  if optTrim body.education = "" && optTrim body.experience = "" &&
      optTrim body.projects = "" && optTrim body.skills = "" then
    (⟨400, .errorBody "Please provide at least one of: education, experience, projects, or skills."⟩,
      [.getUserEv])
  else
  match env.rpcRes with
  | .error msg =>
    if strIncludesB msg "INSUFFICIENT_CREDITS" then
      (⟨402, .errorBody "Insufficient credits"⟩, [.getUserEv, .consumeCreditsEv 1])
    else
      (⟨500, .errorBody ("Credit error: " ++ msg)⟩, [.getUserEv, .consumeCreditsEv 1])
  | .ok newBalance =>
  match env.openAIRes with
  | .error e => (⟨500, .errorBody e⟩, [.getUserEv, .consumeCreditsEv 1, .openAIEv])
  | .ok resumeText =>
  match env.insertRes with
  | .error _ =>
    (⟨500, .errorBody "Failed to save document"⟩,
      [.getUserEv, .consumeCreditsEv 1, .openAIEv, .insertDocEv resumeText])
  | .ok none =>
    (⟨500, .errorBody "Failed to save document"⟩,
      [.getUserEv, .consumeCreditsEv 1, .openAIEv, .insertDocEv resumeText])
  | .ok (some doc) =>
    (⟨200, .docWithCredits doc newBalance⟩,
      [.getUserEv, .consumeCreditsEv 1, .openAIEv, .insertDocEv resumeText])

/-- The GET handler bundled with the resume-generation route: it reports
which environment keys are present and performs no authorization check. -/
def envKeysGET (hasOpenAIKey hasSupabaseUrl : Bool) : ApiResponse :=
  ⟨200, .envReport hasOpenAIKey hasSupabaseUrl⟩

/-! ### Resume-tailoring route (`app/api/tailor-resume/route.ts`) -/

structure TailorBody where
  jobId : String
  resumeText : Option String
  style : Option String

structure TailorEnv where
  authHeader : Option String
  reqBody : Except String TailorBody
  getUserRes : Except String (Option User)
  profileRes : Except String (Option Int)
  jobQueryRes : Except String (Option Job)
  completionRes : Except String (Option String)
  insertRes : Except String (Option DocRow)
  updateErr : Option String

/-- `!resumeText || resumeText.trim().length < 200`. -/
def resumeTextShort (rt : Option String) : Bool :=
  match rt with
  | none => true
  | some s => s == "" || decide ((strTrim s).length < 200)

def tailorResumePOST (env : TailorEnv) : ApiResponse × List Event :=
  match bearerToken env.authHeader with
  | none => (⟨401, .errorBody "Missing auth token"⟩, [])
  | some tok =>
  if tok = "" then (⟨401, .errorBody "Missing auth token"⟩, [])
  else
  match env.reqBody with
  | .error e => (⟨500, .errorBody e⟩, [])
  | .ok body =>
  if body.jobId = "" then (⟨400, .errorBody "jobId is required"⟩, [])
  else if resumeTextShort body.resumeText then
    (⟨400, .errorBody "resumeText is required (min ~200 chars)"⟩, [])
  else
  match env.getUserRes with
  | .error m => (⟨401, .errorBody m⟩, [.getUserEv])
  | .ok none => (⟨401, .errorBody "Unauthorized"⟩, [.getUserEv])
  | .ok (some _user) =>
  match env.profileRes with
  | .error m => (⟨400, .errorBody m⟩, [.getUserEv, .profileReadEv])
  | .ok none => (⟨402, .errorBody "No credits remaining"⟩, [.getUserEv, .profileReadEv])
  | .ok (some creditsRemaining) =>
  if creditsRemaining ≤ 0 then
    (⟨402, .errorBody "No credits remaining"⟩, [.getUserEv, .profileReadEv])
  else
  match env.jobQueryRes with
  | .error m => (⟨404, .errorBody m⟩, [.getUserEv, .profileReadEv, .jobQueryEv])
  | .ok none => (⟨404, .errorBody "Job not found"⟩, [.getUserEv, .profileReadEv, .jobQueryEv])
  | .ok (some _job) =>
  match env.completionRes with
  | .error e => (⟨500, .errorBody e⟩, [.getUserEv, .profileReadEv, .jobQueryEv, .openAIEv])
  | .ok contentOpt =>
  let tailored := strTrim (contentOpt.getD "")
  if tailored = "" then
    (⟨500, .errorBody "Empty AI response"⟩, [.getUserEv, .profileReadEv, .jobQueryEv, .openAIEv])
  else
  match env.insertRes with
  | .error m =>
    (⟨400, .errorBody m⟩,
      [.getUserEv, .profileReadEv, .jobQueryEv, .openAIEv, .insertDocEv tailored])
  | .ok docOpt =>
  match env.updateErr with
  | some _ =>
    (⟨200, .docOnly docOpt⟩,
      [.getUserEv, .profileReadEv, .jobQueryEv, .openAIEv, .insertDocEv tailored,
        .updateCreditsEv (creditsRemaining - 1)])
  | none =>
    (⟨200, .docOnly docOpt⟩,
      [.getUserEv, .profileReadEv, .jobQueryEv, .openAIEv, .insertDocEv tailored,
        .updateCreditsEv (creditsRemaining - 1), .ledgerEv])

/-! ### Resume-upload route (`app/api/resume-upload/route.ts`) -/

structure FileData where
  name : String
  mime : String
  content : List Char

structure UploadEnv where
  authHeader : Option String
  getUserRes : Except String (Option User)
  formDataRes : Except String (Option FileData)
  pdfParseRes : Except String String
  docxParseRes : Except String String
  insertRes : Except String (Option DocRow)

/-- Tail of the upload handler after text extraction: normalize, reject
short texts, insert the document row. -/
def uploadFinish (env : UploadEnv) (tr : List Event) (extracted : String) :
    ApiResponse × List Event :=
  if (normalizeText extracted).length < 200 then
    (⟨400, .errorBody "Could not extract enough text from the file. Try a different format (DOCX often works best), or upload a TXT export."⟩,
      tr)
  else
    match env.insertRes with
    | .error m => (⟨500, .errorBody m⟩, tr ++ [.insertDocEv (normalizeText extracted)])
    | .ok docOpt => (⟨200, .docOnly docOpt⟩, tr ++ [.insertDocEv (normalizeText extracted)])

def docxMime : String :=
  "application/vnd.openxmlformats-officedocument.wordprocessingml.document"

def resumeUploadPOST (env : UploadEnv) : ApiResponse × List Event :=
  match bearerToken env.authHeader with
  | none => (⟨401, .errorBody "Missing auth token"⟩, [])
  | some tok =>
  if tok = "" then (⟨401, .errorBody "Missing auth token"⟩, [])
  else
  match env.getUserRes with
  | .error _ => (⟨401, .errorBody "Not authenticated"⟩, [.getUserEv])
  | .ok none => (⟨401, .errorBody "Not authenticated"⟩, [.getUserEv])
  | .ok (some _user) =>
  match env.formDataRes with
  | .error e => (⟨500, .errorBody e⟩, [.getUserEv])
  | .ok none => (⟨400, .errorBody "No file uploaded"⟩, [.getUserEv])
  | .ok (some file) =>
  if file.content.length = 0 then
    (⟨400, .errorBody "Uploaded file was empty after reading. Try re-uploading, or export the PDF again (DOCX works best)."⟩,
      [.getUserEv])
  else if file.mime == "application/pdf" ||
      strEndsWithB (strToLowerB (orStr file.name "resume")) ".pdf" then
    (match env.pdfParseRes with
     | .error e => (⟨500, .errorBody e⟩, [.getUserEv, .pdfParseEv])
     | .ok t => uploadFinish env [.getUserEv, .pdfParseEv] t)
  else if file.mime == docxMime ||
      strEndsWithB (strToLowerB (orStr file.name "resume")) ".docx" then
    (match env.docxParseRes with
     | .error e => (⟨500, .errorBody e⟩, [.getUserEv, .docxParseEv])
     | .ok t => uploadFinish env [.getUserEv, .docxParseEv] t)
  else if strStartsWithB file.mime "text/" ||
      strEndsWithB (strToLowerB (orStr file.name "resume")) ".txt" then
    uploadFinish env [.getUserEv] (String.mk file.content)
  else
    (⟨400, .errorBody "Unsupported file type. Use PDF, DOCX, or TXT."⟩, [.getUserEv])

/-! ### Lemmas about `normalizeText` -/

theorem replCRLF_sublist (l : List Char) : List.Sublist (replCRLF l) l := by
  induction l with
  | nil => rw [replCRLF]
  | cons c rest ih =>
    rw [replCRLF]
    split
    · exact ih.cons c
    · exact ih.cons₂ c

theorem trimEOLSpaces_sublist (l : List Char) : List.Sublist (trimEOLSpaces l) l := by
  induction l with
  | nil => rw [trimEOLSpaces]
  | cons c rest ih =>
    rw [trimEOLSpaces]
    split
    · exact ih.cons c
    · exact ih.cons₂ c

theorem collapseBlankRuns_sublist (l : List Char) :
    List.Sublist (collapseBlankRuns l) l := by
  induction l with
  | nil => rw [collapseBlankRuns]
  | cons c rest ih =>
    rw [collapseBlankRuns]
    split
    · exact ih.cons c
    · exact ih.cons₂ c

theorem mem_jsTrimL {c : Char} {l : List Char} (h : c ∈ jsTrimL l) : c ∈ l := by
  unfold jsTrimL at h
  rw [List.mem_reverse] at h
  have h2 := List.Sublist.mem h (List.dropWhile_sublist isJsWS)
  rw [List.mem_reverse] at h2
  exact List.Sublist.mem h2 (List.dropWhile_sublist isJsWS)

theorem mem_normalizeTextL {c : Char} {l : List Char} (h : c ∈ normalizeTextL l) :
    c ∈ mapCR (replCRLF l) := by
  unfold normalizeTextL at h
  have h2 := mem_jsTrimL h
  have h3 := List.Sublist.mem h2 (collapseBlankRuns_sublist _)
  exact List.Sublist.mem h3 (trimEOLSpaces_sublist _)

theorem mapCR_no_cr {c : Char} {l : List Char} (h : c ∈ mapCR l) : ¬c = '\r' := by
  unfold mapCR at h
  rw [List.mem_map] at h
  obtain ⟨a, _, ha⟩ := h
  rw [← ha]
  split
  · decide
  · next hne =>
    intro hcr
    exact hne (by rw [hcr]; rfl)

theorem noCR_normalizeTextL (l : List Char) : noCR (normalizeTextL l) = true := by
  rw [noCR, List.all_eq_true]
  intro c hc
  have := mapCR_no_cr (mem_normalizeTextL hc)
  simpa using this

theorem headIsNL_of_head? {t : List Char} {b : Char} (h : t.head? = some b) :
    headIsNL t = (b == '\n') := by
  cases t with
  | nil => simp at h
  | cons a r => simp at h; subst h; rfl

theorem noSpaceBeforeNL_tail {c : Char} {l : List Char}
    (h : noSpaceBeforeNL (c :: l) = true) : noSpaceBeforeNL l = true := by
  cases l with
  | nil => rfl
  | cons b r =>
    rw [noSpaceBeforeNL, Bool.and_eq_true] at h
    exact h.2

theorem noSpaceBeforeNL_cons {c : Char} {t : List Char}
    (h1 : noSpaceBeforeNL t = true) (h2 : (isSpTab c && headIsNL t) = false) :
    noSpaceBeforeNL (c :: t) = true := by
  cases t with
  | nil => rfl
  | cons b r =>
    rw [noSpaceBeforeNL, Bool.and_eq_true]
    refine ⟨?_, h1⟩
    have : headIsNL (b :: r) = (b == '\n') := rfl
    rw [this] at h2
    rw [h2]
    rfl

theorem trimEOLSpaces_noSpace (l : List Char) :
    noSpaceBeforeNL (trimEOLSpaces l) = true := by
  induction l with
  | nil => rfl
  | cons c rest ih =>
    rw [trimEOLSpaces]
    split
    · exact ih
    · next hcond => exact noSpaceBeforeNL_cons ih (Bool.eq_false_iff.mpr hcond)

theorem headTwoNL_head? {t : List Char} (h : headTwoNL t = true) :
    t.head? = some '\n' := by
  match t with
  | [] => simp [headTwoNL] at h
  | [a] => simp [headTwoNL] at h
  | a :: b :: r =>
    rw [headTwoNL, Bool.and_eq_true] at h
    have : a = '\n' := by simpa using h.1
    simp [this]

theorem collapseBlankRuns_head? (c : Char) (rest : List Char) :
    (collapseBlankRuns (c :: rest)).head? = some c := by
  rw [collapseBlankRuns]
  split
  · next hcond =>
    rw [Bool.and_eq_true] at hcond
    have hc : c = '\n' := by simpa using hcond.1
    rw [headTwoNL_head? hcond.2, hc]
  · rfl

theorem collapseBlankRuns_noSpace {l : List Char} (h : noSpaceBeforeNL l = true) :
    noSpaceBeforeNL (collapseBlankRuns l) = true := by
  induction l with
  | nil => rfl
  | cons c rest ih =>
    have ht := ih (noSpaceBeforeNL_tail h)
    rw [collapseBlankRuns]
    split
    · exact ht
    · apply noSpaceBeforeNL_cons ht
      cases rest with
      | nil => simp [collapseBlankRuns, headIsNL]
      | cons b r =>
        rw [headIsNL_of_head? (collapseBlankRuns_head? b r)]
        rw [noSpaceBeforeNL, Bool.and_eq_true] at h
        have := h.1
        cases hst : isSpTab c with
        | false => rfl
        | true =>
          rw [hst] at this
          simpa using this

theorem noTripleNL_cons {c : Char} {t : List Char}
    (h1 : noTripleNL t = true) (h2 : (c == '\n' && headTwoNL t) = false) :
    noTripleNL (c :: t) = true := by
  match t with
  | [] => rfl
  | [b] => rfl
  | b :: d :: r =>
    rw [noTripleNL, Bool.and_eq_true]
    refine ⟨?_, h1⟩
    have he : headTwoNL (b :: d :: r) = (b == '\n' && d == '\n') := rfl
    rw [he] at h2
    have h3 : (c == '\n' && b == '\n' && d == '\n') = false := by
      cases hc : (c == '\n') <;> cases hb : (b == '\n') <;> cases hd : (d == '\n') <;>
        simp_all
    rw [h3]
    rfl

theorem collapseBlankRuns_noTriple (l : List Char) :
    noTripleNL (collapseBlankRuns l) = true := by
  induction l with
  | nil => rfl
  | cons c rest ih =>
    rw [collapseBlankRuns]
    split
    · exact ih
    · next hcond => exact noTripleNL_cons ih (Bool.eq_false_iff.mpr hcond)

theorem noTripleNL_tail {c : Char} {l : List Char}
    (h : noTripleNL (c :: l) = true) : noTripleNL l = true := by
  match l with
  | [] => rfl
  | [b] => rfl
  | b :: d :: r =>
    rw [noTripleNL, Bool.and_eq_true] at h
    exact h.2

theorem noSpace_dropWhile (p : Char → Bool) (l : List Char)
    (h : noSpaceBeforeNL l = true) : noSpaceBeforeNL (l.dropWhile p) = true := by
  induction l with
  | nil => exact h
  | cons c rest ih =>
    rw [List.dropWhile_cons]
    split
    · exact ih (noSpaceBeforeNL_tail h)
    · exact h

theorem noTriple_dropWhile (p : Char → Bool) (l : List Char)
    (h : noTripleNL l = true) : noTripleNL (l.dropWhile p) = true := by
  induction l with
  | nil => exact h
  | cons c rest ih =>
    rw [List.dropWhile_cons]
    split
    · exact ih (noTripleNL_tail h)
    · exact h

theorem noSpace_append_left {l m : List Char}
    (h : noSpaceBeforeNL (l ++ m) = true) : noSpaceBeforeNL l = true := by
  induction l with
  | nil => rfl
  | cons a tl ih =>
    cases tl with
    | nil => rfl
    | cons b r =>
      rw [List.cons_append, List.cons_append, noSpaceBeforeNL, Bool.and_eq_true] at h
      rw [noSpaceBeforeNL, Bool.and_eq_true]
      exact ⟨h.1, ih (by rw [List.cons_append]; exact h.2)⟩

theorem noTriple_append_left {l m : List Char}
    (h : noTripleNL (l ++ m) = true) : noTripleNL l = true := by
  induction l with
  | nil => rfl
  | cons a tl ih =>
    match tl with
    | [] => rfl
    | [b] => rfl
    | b :: d :: r =>
      rw [List.cons_append, List.cons_append, List.cons_append, noTripleNL,
        Bool.and_eq_true] at h
      rw [noTripleNL, Bool.and_eq_true]
      refine ⟨h.1, ih ?_⟩
      rw [List.cons_append, List.cons_append]
      exact h.2

theorem jsTrimL_eq_rdrop (l : List Char) :
    jsTrimL l = List.rdropWhile isJsWS (l.dropWhile isJsWS) := rfl

theorem noSpace_jsTrimL {l : List Char} (h : noSpaceBeforeNL l = true) :
    noSpaceBeforeNL (jsTrimL l) = true := by
  have h1 := noSpace_dropWhile isJsWS l h
  obtain ⟨t, ht⟩ := List.rdropWhile_prefix isJsWS (l.dropWhile isJsWS)
  rw [jsTrimL_eq_rdrop]
  rw [← ht] at h1
  exact noSpace_append_left h1

theorem noTriple_jsTrimL {l : List Char} (h : noTripleNL l = true) :
    noTripleNL (jsTrimL l) = true := by
  have h1 := noTriple_dropWhile isJsWS l h
  obtain ⟨t, ht⟩ := List.rdropWhile_prefix isJsWS (l.dropWhile isJsWS)
  rw [jsTrimL_eq_rdrop]
  rw [← ht] at h1
  exact noTriple_append_left h1

theorem normalizeTextL_noSpace (l : List Char) :
    noSpaceBeforeNL (normalizeTextL l) = true :=
  noSpace_jsTrimL (collapseBlankRuns_noSpace (trimEOLSpaces_noSpace _))

theorem normalizeTextL_noTriple (l : List Char) :
    noTripleNL (normalizeTextL l) = true :=
  noTriple_jsTrimL (collapseBlankRuns_noTriple _)

theorem head?_dropWhile_false {α : Type} {p : α → Bool} {l : List α} {c : α}
    (h : (l.dropWhile p).head? = some c) : p c = false := by
  induction l with
  | nil => simp at h
  | cons a rest ih =>
    rw [List.dropWhile_cons] at h
    split at h
    · exact ih h
    · next hpa =>
      simp at h
      subst h
      exact Bool.eq_false_iff.mpr hpa

theorem trimmedEnds_jsTrimL (l : List Char) : trimmedEnds (jsTrimL l) = true := by
  rw [trimmedEnds, Bool.and_eq_true]
  constructor
  · cases hh : (jsTrimL l).head? with
    | none => rfl
    | some c =>
      show (!isJsWS c) = true
      obtain ⟨t, ht⟩ := List.rdropWhile_prefix isJsWS (l.dropWhile isJsWS)
      rw [jsTrimL_eq_rdrop] at hh
      have hd : (l.dropWhile isJsWS).head? = some c := by
        rw [← ht]
        cases hde : List.rdropWhile isJsWS (l.dropWhile isJsWS) with
        | nil => rw [hde] at hh; cases hh
        | cons a r =>
          rw [hde] at hh
          simp at hh
          rw [hh]
          rfl
      rw [head?_dropWhile_false hd]
      rfl
  · cases hh : (jsTrimL l).getLast? with
    | none => rfl
    | some c =>
      show (!isJsWS c) = true
      unfold jsTrimL at hh
      rw [List.getLast?_reverse] at hh
      rw [head?_dropWhile_false hh]
      rfl

theorem normalizeText_props (s : String) :
    noCR (normalizeText s).data = true ∧
    noSpaceBeforeNL (normalizeText s).data = true ∧
    noTripleNL (normalizeText s).data = true ∧
    trimmedEnds (normalizeText s).data = true := by
  refine ⟨?_, ?_, ?_, ?_⟩
  · exact noCR_normalizeTextL s.data
  · exact normalizeTextL_noSpace s.data
  · exact normalizeTextL_noTriple s.data
  · exact trimmedEnds_jsTrimL _

/-! ### Sample data used to exercise the handlers at concrete inputs -/

def sampleUser : User := ⟨"user-1", some "jane@example.com", none⟩

def sampleJob : Job := ⟨"job-1", some "Acme", some "Engineer", none, none, some "Build things"⟩

def sampleDoc : DocRow := ⟨"doc-1", "Doc", "text"⟩

def sampleCLBody : CLBody := ⟨"job-1", none, none, none, none, none, none, none, none, none⟩

def clEnvOK : CLEnv :=
  ⟨some "url", some "anon", some "Bearer tok", .ok sampleCLBody, .ok (some sampleUser),
    .ok (some sampleJob), .ok 4, .ok "LETTER BODY", .ok (some sampleDoc), "January 1, 2026"⟩

def clEnv404 : CLEnv := { clEnvOK with jobQueryRes := .error "job row not found" }

def clEnvNoAuth : CLEnv := { clEnvOK with authHeader := none }

def clEnvInsufficient : CLEnv := { clEnvOK with rpcRes := .error "P0001: INSUFFICIENT_CREDITS" }

def genBodyOK : GenBody :=
  ⟨none, none, none, none, some "SWE", some "entry", some "BS CS", none, none, none, none, none⟩

def genEnvOK : GenEnv :=
  ⟨some "url", some "anon", some "Bearer tok", .ok genBodyOK, .ok (some sampleUser),
    .ok 4, .ok "RESUME TEXT", .ok (some sampleDoc)⟩

def genEnvNoAuth : GenEnv := { genEnvOK with authHeader := none }

def genEnvInsufficient : GenEnv := { genEnvOK with rpcRes := .error "P0001: INSUFFICIENT_CREDITS" }

def txt220 : String := String.mk (List.replicate 220 'a')

def tailorBodyOK : TailorBody := ⟨"job-1", some txt220, some "balanced"⟩

def tailorEnvOK : TailorEnv :=
  ⟨some "Bearer tok", .ok tailorBodyOK, .ok (some sampleUser), .ok (some 5),
    .ok (some sampleJob), .ok (some "TAILORED RESUME"), .ok (some sampleDoc), none⟩

def tailorEnvNoAuth : TailorEnv := { tailorEnvOK with authHeader := none }

def tailorEnvNoCredits : TailorEnv := { tailorEnvOK with profileRes := .ok (some 0) }

def tailorBodyShort : TailorBody := ⟨"job-1", some "too short", some "balanced"⟩

def tailorEnvShort : TailorEnv := { tailorEnvOK with reqBody := .ok tailorBodyShort }

def sampleTxtFile : FileData := ⟨"resume.txt", "text/plain", List.replicate 220 'a'⟩

def emptyPdfFile : FileData := ⟨"resume.pdf", "application/pdf", []⟩

def uploadEnvOK : UploadEnv :=
  ⟨some "Bearer tok", .ok (some sampleUser), .ok (some sampleTxtFile), .ok "", .ok "",
    .ok (some sampleDoc)⟩

def uploadEnvEmpty : UploadEnv := { uploadEnvOK with formDataRes := .ok (some emptyPdfFile) }

def uploadEnvNoAuth : UploadEnv := { uploadEnvOK with authHeader := none }

/-! ### Per-route response-shape lemmas -/

theorem coverLetter_shape (env : CLEnv) :
    ((coverLetterPOST env).1.status = 200 ∧
      (coverLetterPOST env).1.body.hasDocumentField = true ∧
      (coverLetterPOST env).1.body.hasCreditsField = true) ∨
    (¬(coverLetterPOST env).1.status = 200 ∧
      (coverLetterPOST env).1.body.hasErrorField = true ∧
      (coverLetterPOST env).1.status ∈ [400, 401, 402, 404, 500]) := by
  unfold coverLetterPOST
  repeat' split
  all_goals simp [RespBody.hasDocumentField, RespBody.hasCreditsField, RespBody.hasErrorField]

theorem generateResume_shape (env : GenEnv) :
    ((generateResumePOST env).1.status = 200 ∧
      (generateResumePOST env).1.body.hasDocumentField = true ∧
      (generateResumePOST env).1.body.hasCreditsField = true) ∨
    (¬(generateResumePOST env).1.status = 200 ∧
      (generateResumePOST env).1.body.hasErrorField = true ∧
      (generateResumePOST env).1.status ∈ [400, 401, 402, 404, 500]) := by
  unfold generateResumePOST
  repeat' split
  all_goals simp [RespBody.hasDocumentField, RespBody.hasCreditsField, RespBody.hasErrorField]

theorem tailorResume_shape (env : TailorEnv) :
    ((tailorResumePOST env).1.status = 200 ∧
      (tailorResumePOST env).1.body.hasDocumentField = true ∧
      (tailorResumePOST env).1.body.hasCreditsField = false) ∨
    (¬(tailorResumePOST env).1.status = 200 ∧
      (tailorResumePOST env).1.body.hasErrorField = true ∧
      (tailorResumePOST env).1.status ∈ [400, 401, 402, 404, 500]) := by
  unfold tailorResumePOST
  repeat' split
  all_goals simp [RespBody.hasDocumentField, RespBody.hasCreditsField, RespBody.hasErrorField]
  all_goals split_ifs
  all_goals simp [RespBody.hasDocumentField, RespBody.hasCreditsField, RespBody.hasErrorField]

theorem uploadFinish_shape (env : UploadEnv) (tr : List Event) (ext : String) :
    ((uploadFinish env tr ext).1.status = 200 ∧
      (uploadFinish env tr ext).1.body.hasDocumentField = true) ∨
    (¬(uploadFinish env tr ext).1.status = 200 ∧
      (uploadFinish env tr ext).1.body.hasErrorField = true ∧
      (uploadFinish env tr ext).1.status ∈ [400, 401, 402, 404, 500]) := by
  unfold uploadFinish
  repeat' split
  all_goals simp [RespBody.hasDocumentField, RespBody.hasCreditsField, RespBody.hasErrorField]

set_option maxHeartbeats 1600000 in
theorem resumeUpload_shape (env : UploadEnv) :
    ((resumeUploadPOST env).1.status = 200 ∧
      (resumeUploadPOST env).1.body.hasDocumentField = true) ∨
    (¬(resumeUploadPOST env).1.status = 200 ∧
      (resumeUploadPOST env).1.body.hasErrorField = true ∧
      (resumeUploadPOST env).1.status ∈ [400, 401, 402, 404, 500]) := by
  unfold resumeUploadPOST
  repeat' split
  all_goals first
    | exact uploadFinish_shape _ _ _
    | simp [RespBody.hasDocumentField, RespBody.hasCreditsField, RespBody.hasErrorField]

/-! ### Per-route event-ordering lemmas -/

theorem coverLetter_order (env : CLEnv) :
    firstComesBefore Event.isGetUser Event.isConsume (coverLetterPOST env).2 = true ∧
    firstComesBefore Event.isConsume Event.isOpenAI (coverLetterPOST env).2 = true ∧
    firstComesBefore Event.isConsume Event.isInsert (coverLetterPOST env).2 = true ∧
    firstComesBefore Event.isOpenAI Event.isInsert (coverLetterPOST env).2 = true := by
  unfold coverLetterPOST
  repeat' split
  all_goals simp [firstComesBefore, Event.isGetUser, Event.isConsume, Event.isOpenAI,
    Event.isInsert]

theorem generateResume_order (env : GenEnv) :
    firstComesBefore Event.isGetUser Event.isConsume (generateResumePOST env).2 = true ∧
    firstComesBefore Event.isConsume Event.isOpenAI (generateResumePOST env).2 = true ∧
    firstComesBefore Event.isConsume Event.isInsert (generateResumePOST env).2 = true ∧
    firstComesBefore Event.isOpenAI Event.isInsert (generateResumePOST env).2 = true := by
  unfold generateResumePOST
  repeat' split
  all_goals simp [firstComesBefore, Event.isGetUser, Event.isConsume, Event.isOpenAI,
    Event.isInsert]

theorem tailorResume_order (env : TailorEnv) :
    firstComesBefore Event.isProfileRead Event.isOpenAI (tailorResumePOST env).2 = true ∧
    firstComesBefore Event.isInsert Event.isUpdate (tailorResumePOST env).2 = true ∧
    firstComesBefore Event.isOpenAI Event.isUpdate (tailorResumePOST env).2 = true := by
  unfold tailorResumePOST
  repeat' split
  all_goals simp [firstComesBefore, Event.isProfileRead, Event.isOpenAI, Event.isInsert,
    Event.isUpdate, Event.isGetUser]
  all_goals split_ifs
  all_goals simp [firstComesBefore, Event.isProfileRead, Event.isOpenAI, Event.isInsert,
    Event.isUpdate, Event.isGetUser]

theorem tailorResume_no_consume (env : TailorEnv) (a : Int) :
    Event.consumeCreditsEv a ∉ (tailorResumePOST env).2 := by
  unfold tailorResumePOST
  repeat' split
  all_goals simp
  all_goals split_ifs
  all_goals simp

/-- Any document row inserted by `uploadFinish` carries the normalized text,
already checked to be at least 200 characters long. -/
theorem uploadFinish_insert {env : UploadEnv} {tr : List Event} {ext : String} {c : String}
    (h : Event.insertDocEv c ∈ (uploadFinish env tr ext).2) :
    Event.insertDocEv c ∈ tr ∨ (c = normalizeText ext ∧ 200 ≤ c.length) := by
  unfold uploadFinish at h
  split at h
  · exact Or.inl h
  · next hlen =>
    split at h <;>
    · rw [List.mem_append] at h
      rcases h with h | h
      · exact Or.inl h
      · right
        simp at h
        subst h
        exact ⟨rfl, by omega⟩

set_option maxRecDepth 8000

/-! ### Claims -/

/-- Claim C1, counterexample: the GET environment-keys handler never inspects
the request and always answers 200, so a request without a bearer token does
not receive 401 on that route. -/
theorem c1_counterexample :
    (envKeysGET true true).status = 200 ∧ ¬(envKeysGET true true).status = 401 :=
  ⟨rfl, by decide⟩

/-- Claim C1 (amended): a request whose Authorization header does not start
with "Bearer " receives 401 from each of the four POST routes (for the
cover-letter and resume-generation routes assuming the two supabase
environment variables are configured, since those are checked first), while
the GET environment-keys handler performs no authorization check and always
answers 200. -/
theorem c1_amended_theorem (e1 : CLEnv) (e2 : GenEnv) (e3 : TailorEnv) (e4 : UploadEnv)
    (h1 : e1.supabaseUrl.isSome = true) (h2 : e1.supabaseAnon.isSome = true)
    (h3 : e2.supabaseUrl.isSome = true) (h4 : e2.supabaseAnon.isSome = true)
    (hb1 : strStartsWithB (e1.authHeader.getD "") "Bearer " = false)
    (hb2 : strStartsWithB (e2.authHeader.getD "") "Bearer " = false)
    (hb3 : strStartsWithB (e3.authHeader.getD "") "Bearer " = false)
    (hb4 : strStartsWithB (e4.authHeader.getD "") "Bearer " = false) :
    (coverLetterPOST e1).1.status = 401 ∧
    (generateResumePOST e2).1.status = 401 ∧
    (tailorResumePOST e3).1.status = 401 ∧
    (resumeUploadPOST e4).1.status = 401 ∧
    ∀ b1 b2 : Bool, (envKeysGET b1 b2).status = 200 := by
  obtain ⟨u1, hu1⟩ := Option.isSome_iff_exists.mp h1
  obtain ⟨a1, ha1⟩ := Option.isSome_iff_exists.mp h2
  obtain ⟨u2, hu2⟩ := Option.isSome_iff_exists.mp h3
  obtain ⟨a2, ha2⟩ := Option.isSome_iff_exists.mp h4
  refine ⟨?_, ?_, ?_, ?_, fun b1 b2 => rfl⟩
  · simp [coverLetterPOST, hu1, ha1, bearerToken, hb1]
  · simp [generateResumePOST, hu2, ha2, bearerToken, hb2]
  · simp [tailorResumePOST, bearerToken, hb3]
  · simp [resumeUploadPOST, bearerToken, hb4]

/-- Witness for the amended C1 at concrete token-less requests. -/
theorem c1_witness :
    (coverLetterPOST clEnvNoAuth).1.status = 401 ∧
    (generateResumePOST genEnvNoAuth).1.status = 401 ∧
    (tailorResumePOST tailorEnvNoAuth).1.status = 401 ∧
    (resumeUploadPOST uploadEnvNoAuth).1.status = 401 ∧
    ∀ b1 b2 : Bool, (envKeysGET b1 b2).status = 200 :=
  c1_amended_theorem clEnvNoAuth genEnvNoAuth tailorEnvNoAuth uploadEnvNoAuth
    rfl rfl rfl rfl (by decide) (by decide) (by decide) (by decide)

/-- Claim C2, counterexample: a successful resume-tailoring response returns
the document but carries no creditsRemaining field. -/
theorem c2_counterexample :
    (tailorResumePOST tailorEnvOK).1.status = 200 ∧
    (tailorResumePOST tailorEnvOK).1.body.hasCreditsField = false := by
  constructor <;> decide

/-- Claim C2 (amended): the cover-letter and resume-generation routes answer
success with both document and creditsRemaining fields and failure with an
error field; the resume-tailoring route answers success with a document
field and no creditsRemaining field, and failure with an error field. -/
theorem c2_amended_theorem (e1 : CLEnv) (e2 : GenEnv) (e3 : TailorEnv) :
    ((coverLetterPOST e1).1.status = 200 →
      (coverLetterPOST e1).1.body.hasDocumentField = true ∧
      (coverLetterPOST e1).1.body.hasCreditsField = true) ∧
    (¬(coverLetterPOST e1).1.status = 200 →
      (coverLetterPOST e1).1.body.hasErrorField = true) ∧
    ((generateResumePOST e2).1.status = 200 →
      (generateResumePOST e2).1.body.hasDocumentField = true ∧
      (generateResumePOST e2).1.body.hasCreditsField = true) ∧
    (¬(generateResumePOST e2).1.status = 200 →
      (generateResumePOST e2).1.body.hasErrorField = true) ∧
    ((tailorResumePOST e3).1.status = 200 →
      (tailorResumePOST e3).1.body.hasDocumentField = true ∧
      (tailorResumePOST e3).1.body.hasCreditsField = false) ∧
    (¬(tailorResumePOST e3).1.status = 200 →
      (tailorResumePOST e3).1.body.hasErrorField = true) := by
  refine ⟨?_, ?_, ?_, ?_, ?_, ?_⟩
  · intro h
    rcases coverLetter_shape e1 with h' | h'
    · exact ⟨h'.2.1, h'.2.2⟩
    · exact absurd h h'.1
  · intro h
    rcases coverLetter_shape e1 with h' | h'
    · exact absurd h'.1 h
    · exact h'.2.1
  · intro h
    rcases generateResume_shape e2 with h' | h'
    · exact ⟨h'.2.1, h'.2.2⟩
    · exact absurd h h'.1
  · intro h
    rcases generateResume_shape e2 with h' | h'
    · exact absurd h'.1 h
    · exact h'.2.1
  · intro h
    rcases tailorResume_shape e3 with h' | h'
    · exact ⟨h'.2.1, h'.2.2⟩
    · exact absurd h h'.1
  · intro h
    rcases tailorResume_shape e3 with h' | h'
    · exact absurd h'.1 h
    · exact h'.2.1

/-- Witness for the amended C2: concrete successful and failing requests
with the stated body shapes. -/
theorem c2_witness :
    (coverLetterPOST clEnvOK).1.body.hasDocumentField = true ∧
    (coverLetterPOST clEnvOK).1.body.hasCreditsField = true ∧
    (tailorResumePOST tailorEnvOK).1.body.hasDocumentField = true ∧
    (tailorResumePOST tailorEnvOK).1.body.hasCreditsField = false ∧
    (coverLetterPOST clEnv404).1.body.hasErrorField = true := by
  have h := c2_amended_theorem clEnvOK genEnvOK tailorEnvOK
  have h404 := c2_amended_theorem clEnv404 genEnvOK tailorEnvOK
  exact ⟨(h.1 (by decide)).1, (h.1 (by decide)).2, ((h.2.2.2.2.1) (by decide)).1,
    ((h.2.2.2.2.1) (by decide)).2, h404.2.1 (by decide)⟩

/-- Claim C3, counterexample: in the resume-tailoring route both a credit
decrement and a document insert occur, but the decrement does not come
before the insert. -/
theorem c3_counterexample :
    (tailorResumePOST tailorEnvOK).2.any Event.isUpdate = true ∧
    (tailorResumePOST tailorEnvOK).2.any Event.isInsert = true ∧
    firstComesBefore Event.isUpdate Event.isInsert (tailorResumePOST tailorEnvOK).2 = false := by
  refine ⟨?_, ?_, ?_⟩ <;> decide

/-- Claim C3 (amended): the cover-letter and resume-generation routes order
their external calls as token validation, credit decrement, completion call,
document insert; the resume-tailoring route instead performs its direct
credit decrement only after the completion call and the document insert. -/
theorem c3_amended_theorem (e1 : CLEnv) (e2 : GenEnv) (e3 : TailorEnv) :
    (firstComesBefore Event.isGetUser Event.isConsume (coverLetterPOST e1).2 = true ∧
      firstComesBefore Event.isConsume Event.isOpenAI (coverLetterPOST e1).2 = true ∧
      firstComesBefore Event.isConsume Event.isInsert (coverLetterPOST e1).2 = true ∧
      firstComesBefore Event.isOpenAI Event.isInsert (coverLetterPOST e1).2 = true) ∧
    (firstComesBefore Event.isGetUser Event.isConsume (generateResumePOST e2).2 = true ∧
      firstComesBefore Event.isConsume Event.isOpenAI (generateResumePOST e2).2 = true ∧
      firstComesBefore Event.isConsume Event.isInsert (generateResumePOST e2).2 = true ∧
      firstComesBefore Event.isOpenAI Event.isInsert (generateResumePOST e2).2 = true) ∧
    (firstComesBefore Event.isInsert Event.isUpdate (tailorResumePOST e3).2 = true ∧
      firstComesBefore Event.isOpenAI Event.isUpdate (tailorResumePOST e3).2 = true) :=
  ⟨coverLetter_order e1, generateResume_order e2, (tailorResume_order e3).2⟩

/-- Claim C4: the resume-tailoring route updates the stored balance to
exactly the previously read balance minus one, reads the balance before the
completion call, and never invokes the atomic consume_credits procedure. -/
theorem c4_theorem (env : TailorEnv) (r w : Int)
    (hr : env.profileRes = .ok (some r))
    (hw : Event.updateCreditsEv w ∈ (tailorResumePOST env).2) :
    w = r - 1 ∧
    firstComesBefore Event.isProfileRead Event.isOpenAI (tailorResumePOST env).2 = true ∧
    (∀ a : Int, Event.consumeCreditsEv a ∉ (tailorResumePOST env).2) := by
  refine ⟨?_, (tailorResume_order env).1, fun a => tailorResume_no_consume env a⟩
  unfold tailorResumePOST at hw
  repeat' split at hw
  all_goals (try (rw [apply_ite Prod.snd] at hw; split at hw))
  all_goals simp_all

/-- Witness for C4 at a concrete request with balance 5. -/
theorem c4_witness :
    (4 : Int) = 5 - 1 ∧
    firstComesBefore Event.isProfileRead Event.isOpenAI (tailorResumePOST tailorEnvOK).2 = true ∧
    (∀ a : Int, Event.consumeCreditsEv a ∉ (tailorResumePOST tailorEnvOK).2) :=
  c4_theorem tailorEnvOK 5 4 rfl (by decide)

/-- Claim C5: whenever the insufficient-credits condition is signalled — the
consume_credits RPC error message contains INSUFFICIENT_CREDITS in the
cover-letter and resume-generation routes, or the read balance is at most
zero in the resume-tailoring route — the route answers 402 with an error
body. -/
theorem c5_theorem (e1 : CLEnv) (e2 : GenEnv) (e3 : TailorEnv) (msg1 msg2 : String) (r : Int)
    (h1 : e1.rpcRes = .error msg1) (h1i : strIncludesB msg1 "INSUFFICIENT_CREDITS" = true)
    (h1c : Event.consumeCreditsEv 1 ∈ (coverLetterPOST e1).2)
    (h2 : e2.rpcRes = .error msg2) (h2i : strIncludesB msg2 "INSUFFICIENT_CREDITS" = true)
    (h2c : Event.consumeCreditsEv 1 ∈ (generateResumePOST e2).2)
    (h3 : e3.profileRes = .ok (some r)) (h3r : r ≤ 0)
    (h3p : Event.profileReadEv ∈ (tailorResumePOST e3).2) :
    ((coverLetterPOST e1).1.status = 402 ∧ (coverLetterPOST e1).1.body.hasErrorField = true) ∧
    ((generateResumePOST e2).1.status = 402 ∧ (generateResumePOST e2).1.body.hasErrorField = true) ∧
    ((tailorResumePOST e3).1.status = 402 ∧ (tailorResumePOST e3).1.body.hasErrorField = true) := by
  refine ⟨?_, ?_, ?_⟩
  · unfold coverLetterPOST at h1c ⊢
    repeat' split
    all_goals simp_all [RespBody.hasErrorField]
  · unfold generateResumePOST at h2c ⊢
    repeat' split
    all_goals simp_all [RespBody.hasErrorField]
  · unfold tailorResumePOST at h3p ⊢
    repeat' split
    all_goals simp_all [RespBody.hasErrorField]

/-- Witness for C5 at concrete insufficient-credit requests. -/
theorem c5_witness :
    ((coverLetterPOST clEnvInsufficient).1.status = 402 ∧
      (coverLetterPOST clEnvInsufficient).1.body.hasErrorField = true) ∧
    ((generateResumePOST genEnvInsufficient).1.status = 402 ∧
      (generateResumePOST genEnvInsufficient).1.body.hasErrorField = true) ∧
    ((tailorResumePOST tailorEnvNoCredits).1.status = 402 ∧
      (tailorResumePOST tailorEnvNoCredits).1.body.hasErrorField = true) :=
  c5_theorem clEnvInsufficient genEnvInsufficient tailorEnvNoCredits
    "P0001: INSUFFICIENT_CREDITS" "P0001: INSUFFICIENT_CREDITS" 0
    rfl (by decide) (by decide) rfl (by decide) (by decide) rfl (by decide) (by decide)

/-- Claim C6, counterexample: a resume-generation request (whose body has no
resume-text field at all) succeeds with 200 and consumes a credit and calls
the completion API, instead of being rejected with 400. -/
theorem c6_counterexample :
    (generateResumePOST genEnvOK).1.status = 200 ∧
    (generateResumePOST genEnvOK).2.any Event.isConsume = true ∧
    (generateResumePOST genEnvOK).2.any Event.isOpenAI = true := by
  refine ⟨?_, ?_, ?_⟩ <;> decide

/-- Claim C6 (amended): only the resume-tailoring route checks resume-text
length: a tailoring request carrying a non-empty bearer token and a
parseable body whose resume text is absent or trims to fewer than 200
characters receives 400 before any external call (no credit read or
decrement and no completion call). -/
theorem c6_amended_theorem (env : TailorEnv) (b : TailorBody) (t : String)
    (ht : bearerToken env.authHeader = some t) (htne : ¬t = "")
    (hb : env.reqBody = .ok b)
    (hs : resumeTextShort b.resumeText = true) :
    (tailorResumePOST env).1.status = 400 ∧ (tailorResumePOST env).2 = [] := by
  by_cases hj : b.jobId = "" <;> simp [tailorResumePOST, ht, htne, hb, hj, hs]

/-- Witness for the amended C6 at a concrete short-resume request. -/
theorem c6_witness :
    (tailorResumePOST tailorEnvShort).1.status = 400 ∧
    (tailorResumePOST tailorEnvShort).2 = [] :=
  c6_amended_theorem tailorEnvShort tailorBodyShort "tok" (by decide) (by decide) rfl (by decide)

/-- Claim C7: an upload request that passes authentication (a non-empty
bearer token and a valid user) and whose file reads back as a zero-length
buffer receives 400, and neither the PDF parser nor the DOCX parser is
invoked. -/
theorem c7_theorem (env : UploadEnv) (f : FileData) (t : String) (u : User)
    (ht : bearerToken env.authHeader = some t) (htne : ¬t = "")
    (hg : env.getUserRes = .ok (some u))
    (hf : env.formDataRes = .ok (some f))
    (he : f.content = []) :
    (resumeUploadPOST env).1.status = 400 ∧
    Event.pdfParseEv ∉ (resumeUploadPOST env).2 ∧
    Event.docxParseEv ∉ (resumeUploadPOST env).2 := by
  simp [resumeUploadPOST, ht, htne, hg, hf, he]

/-- Witness for C7 at a concrete empty-file upload. -/
theorem c7_witness :
    (resumeUploadPOST uploadEnvEmpty).1.status = 400 ∧
    Event.pdfParseEv ∉ (resumeUploadPOST uploadEnvEmpty).2 ∧
    Event.docxParseEv ∉ (resumeUploadPOST uploadEnvEmpty).2 :=
  c7_theorem uploadEnvEmpty emptyPdfFile "tok" sampleUser (by decide) (by decide) rfl rfl rfl

/-- Claim C8, counterexample: the cover-letter route answers a job-not-found
error with status 404, which is outside the claimed set of error statuses. -/
theorem c8_counterexample :
    (coverLetterPOST clEnv404).1.body.hasErrorField = true ∧
    (coverLetterPOST clEnv404).1.status = 404 ∧
    ¬(coverLetterPOST clEnv404).1.status ∈ [400, 401, 402, 500] := by
  refine ⟨?_, ?_, ?_⟩ <;> decide

/-- Claim C8 (amended): every non-200 response of every route is a JSON
error body with status in the set 400, 401, 402, 404, 500; the GET
environment-keys handler always answers 200. -/
theorem c8_amended_theorem (e1 : CLEnv) (e2 : GenEnv) (e3 : TailorEnv) (e4 : UploadEnv) :
    (¬(coverLetterPOST e1).1.status = 200 →
      (coverLetterPOST e1).1.body.hasErrorField = true ∧
      (coverLetterPOST e1).1.status ∈ [400, 401, 402, 404, 500]) ∧
    (¬(generateResumePOST e2).1.status = 200 →
      (generateResumePOST e2).1.body.hasErrorField = true ∧
      (generateResumePOST e2).1.status ∈ [400, 401, 402, 404, 500]) ∧
    (¬(tailorResumePOST e3).1.status = 200 →
      (tailorResumePOST e3).1.body.hasErrorField = true ∧
      (tailorResumePOST e3).1.status ∈ [400, 401, 402, 404, 500]) ∧
    (¬(resumeUploadPOST e4).1.status = 200 →
      (resumeUploadPOST e4).1.body.hasErrorField = true ∧
      (resumeUploadPOST e4).1.status ∈ [400, 401, 402, 404, 500]) ∧
    ∀ b1 b2 : Bool, (envKeysGET b1 b2).status = 200 := by
  refine ⟨?_, ?_, ?_, ?_, fun b1 b2 => rfl⟩
  · intro h
    rcases coverLetter_shape e1 with h' | h'
    · exact absurd h'.1 h
    · exact ⟨h'.2.1, h'.2.2⟩
  · intro h
    rcases generateResume_shape e2 with h' | h'
    · exact absurd h'.1 h
    · exact ⟨h'.2.1, h'.2.2⟩
  · intro h
    rcases tailorResume_shape e3 with h' | h'
    · exact absurd h'.1 h
    · exact ⟨h'.2.1, h'.2.2⟩
  · intro h
    rcases resumeUpload_shape e4 with h' | h'
    · exact absurd h'.1 h
    · exact ⟨h'.2.1, h'.2.2⟩

/-- Witness for the amended C8 at a concrete 404 error response. -/
theorem c8_witness :
    (coverLetterPOST clEnv404).1.body.hasErrorField = true ∧
    (coverLetterPOST clEnv404).1.status ∈ [400, 401, 402, 404, 500] :=
  (c8_amended_theorem clEnv404 genEnvOK tailorEnvOK uploadEnvOK).1 (by decide)

/-- Claim C9: every document row inserted by the resume-upload route has
fully newline-normalized content (no carriage returns, no space or tab
before a newline, no run of three or more newlines, no leading or trailing
whitespace) of length at least 200. -/
theorem c9_theorem (env : UploadEnv) (c : String)
    (h : Event.insertDocEv c ∈ (resumeUploadPOST env).2) :
    noCR c.data = true ∧ noSpaceBeforeNL c.data = true ∧ noTripleNL c.data = true ∧
    trimmedEnds c.data = true ∧ 200 ≤ c.length := by
  unfold resumeUploadPOST at h
  repeat' split at h
  all_goals
    first
    | simp at h
    | (rcases uploadFinish_insert h with h' | ⟨hc, hlen⟩
       · simp at h'
       · subst hc
         obtain ⟨p1, p2, p3, p4⟩ := normalizeText_props _
         exact ⟨p1, p2, p3, p4, hlen⟩)

/-- Witness for C9 at a concrete 220-character text upload. -/
theorem c9_witness :
    noCR (normalizeText txt220).data = true ∧
    noSpaceBeforeNL (normalizeText txt220).data = true ∧
    noTripleNL (normalizeText txt220).data = true ∧
    trimmedEnds (normalizeText txt220).data = true ∧
    200 ≤ (normalizeText txt220).length :=
  c9_theorem uploadEnvOK (normalizeText txt220) (by decide)

end JobFit
